import Mathlib

/-
Verification of the NovinPythonBridge C component
(src/Sources/NovinPythonBridge/src/NovinPythonBridge.c).

The bridge embeds a CPython interpreter in the host process, lazily
constructs one instance of the external class NovinAIBridge, and forwards
JSON payloads to its process_request method.  The shallow embedding below
mirrors the C translation unit:

  * the four process-wide static variables become fields of `BridgeState`;
  * every fallible CPython API call becomes a Boolean (or Option) field of
    an outcome oracle (`PyEnv` for the request path, `InitEnv` for the
    interpreter start-up path); the functions are deterministic once the
    oracle is fixed;
  * interactions with the interpreter are recorded in an event trace
    (`Event`), in the order the C code performs them, so that statements
    such as "the interpreter lock is released on every exit path" or
    "no interaction with the interpreter happens" are expressible;
  * C strings (`const char *`) become `Option String`, with `none` for a
    null pointer; `strdup` of the fixed error-message literals is modelled
    as infallible, while `strdup` of the unbounded response string keeps
    its checked failure path (the code checks only the latter).
-/

namespace NovinBridge

/-- A constructed collaborator instance (the Python object stored in the
static `s_novinBridgeInstance`).  `ctorConfig` records the constructor
argument it was built with: `some cfg` when the brand-configuration JSON
string `cfg` was parsed and the resulting object passed as the sole
positional argument, `none` when the constructor was called with no
arguments. -/
structure BridgeInstanceObj where
  ctorConfig : Option String
  deriving Repr, DecidableEq

/-- The process-wide static state of NovinPythonBridge.c:
`s_pythonInitialized`, `s_novinBridgeInstance`, `s_pythonHomeW` (the decoded
wide copy of the home path), and `s_mainThreadState` (modelled as the Boolean
fact that a saved thread state exists). -/
structure BridgeState where
  pythonInitialized : Bool
  bridgeInstance : Option BridgeInstanceObj
  pythonHomeW : Option String
  mainThreadStateSaved : Bool
  deriving Repr, DecidableEq

/-- The state of a freshly loaded process: every static variable is
zero-initialized (false / NULL). -/
def initialState : BridgeState :=
  { pythonInitialized := false
    bridgeInstance := none
    pythonHomeW := none
    mainThreadStateSaved := false }

/-- Observable interactions with the embedded interpreter, in program
order.  `gilEnsure`/`gilRelease` are `PyGILState_Ensure`/`PyGILState_Release`;
`pyApi` records a named CPython API call; `construct` is the
`PyObject_CallObject` invocation of the NovinAIBridge class with the given
argument; `collabCall` is the invocation of the collaborator instance
method `process_request` with the given request and client id. -/
inductive Event where
  | gilEnsure
  | gilRelease
  | pyApi (name : String)
  | construct (arg : Option String)
  | collabCall (requestJson clientId : String)
  deriving Repr, DecidableEq

/-- Whether an event is a global-interpreter-lock acquisition or release. -/
def Event.isGil : Event → Bool
  | .gilEnsure => true
  | .gilRelease => true
  | _ => false

/-- Whether an event is a constructor invocation of the collaborator class. -/
def Event.isConstruct : Event → Bool
  | .construct _ => true
  | _ => false

/-- The C test `ptr && strlen(ptr) > 0`: a non-null, non-empty C string. -/
def cstrNonEmpty : Option String → Bool
  | none => false
  | some s => s.length > 0

/-- Outcome oracle for the fallible CPython API calls made on the
`novin_python_process_request` path.  Each field fixes the outcome of the
corresponding call in NovinPythonBridge.c:
`unicodeOk` is `PyUnicode_FromString("novin_ai_bridge")` (line 19),
`importModuleOk` is `PyImport_Import` (line 25),
`getClassOk` is `PyObject_GetAttrString(module, "NovinAIBridge")` (line 32),
`jsonImportOk` is `PyImport_ImportModule("json")` (line 41),
`loadsAttrOk` is `PyObject_GetAttrString(jsonModule, "loads")` (line 43),
`jsonLoadsOk` is the `json.loads` call on the configuration (line 48),
`ctorOk` is the constructor call `PyObject_CallObject(class, args)` (line 63),
`getProcessOk` is `PyObject_GetAttrString(instance, "process_request")` (line 167),
`callResult` is the collaborator call (line 182): `none` when it raises,
`some s` when it returns the Python string `s`,
`utf8Ok` is `PyUnicode_AsUTF8(result)` (line 195), and
`dupOk` is `strdup(resultCString)` (line 205). -/
structure PyEnv where
  unicodeOk : Bool
  importModuleOk : Bool
  getClassOk : Bool
  jsonImportOk : Bool
  loadsAttrOk : Bool
  jsonLoadsOk : Bool
  ctorOk : Bool
  getProcessOk : Bool
  callResult : Option String
  utf8Ok : Bool
  dupOk : Bool
  deriving Repr, DecidableEq

/-- The static function `ensure_bridge_initialized` (lines 14-73 of
NovinPythonBridge.c).  Returns the updated state together with the trace of
interpreter interactions it performed.  It mirrors the C control flow:
return immediately if the instance exists; build the module name; import
the module; resolve the class; when `brandConfigJson` is non-null and
non-empty, try to obtain `json.loads` and parse the configuration — on any
failure of that sub-chain `args` stays NULL and the constructor is called
with an empty argument tuple instead (lines 39-61); call the constructor;
only a successful constructor call stores the instance (line 72). -/
def ensure_bridge_initialized (env : PyEnv) (s : BridgeState)
    (brandConfigJson : Option String) : BridgeState × List Event :=
  if s.bridgeInstance.isSome then (s, [])
  else
    let ev0 := [Event.pyApi "PyUnicode_FromString novin_ai_bridge"]
    if !env.unicodeOk then (s, ev0)
    else
      let ev1 := ev0 ++ [Event.pyApi "PyImport_Import novin_ai_bridge"]
      if !env.importModuleOk then (s, ev1)
      else
        let ev2 := ev1 ++ [Event.pyApi "PyObject_GetAttrString NovinAIBridge"]
        if !env.getClassOk then (s, ev2)
        else
          let argAndEv : Option String × List Event :=
            if cstrNonEmpty brandConfigJson then
              let evA := ev2 ++ [Event.pyApi "PyImport_ImportModule json"]
              if !env.jsonImportOk then (none, evA)
              else
                let evB := evA ++ [Event.pyApi "PyObject_GetAttrString loads"]
                if !env.loadsAttrOk then (none, evB)
                else
                  let evC := evB ++ [Event.pyApi "json loads call"]
                  if !env.jsonLoadsOk then (none, evC)
                  else (some (brandConfigJson.getD ""), evC)
            else (none, ev2)
          let ev3 := argAndEv.2 ++ [Event.construct argAndEv.1]
          if !env.ctorOk then (s, ev3)
          else ({ s with bridgeInstance := some { ctorConfig := argAndEv.1 } }, ev3)

/-- The observable outcome of one `novin_python_process_request` call:
the returned string (`none` for a NULL return), the message written through
`errorOut` (`none` when the slot was not supplied or was left untouched),
the trace of interpreter interactions, and the static state on return. -/
structure PReqResult where
  result : Option String
  err : Option String
  events : List Event
  state : BridgeState
  deriving Repr, DecidableEq

/-- Writing an error message through the optional `errorOut` slot:
`*errorOut = strdup(msg)` guarded by `if (errorOut)`. -/
def writeErr (errorSupplied : Bool) (msg : String) : Option String :=
  if errorSupplied then some msg else none

/-- `novin_python_process_request` (lines 143-212 of NovinPythonBridge.c).
`errorSupplied` models whether the caller passed a non-null `errorOut`
pointer.  The function mirrors the C control flow exactly: the
not-initialized early return (before any interpreter interaction), the
GIL acquisition, lazy construction via `ensure_bridge_initialized` with its
failure check, method resolution, the collaborator call, UTF-8 conversion,
and the final `strdup` of the response, with the GIL released on each exit
path after the acquisition. -/
def novin_python_process_request (env : PyEnv) (s : BridgeState)
    (requestJson : String) (clientId : Option String)
    (brandConfigJson : Option String) (errorSupplied : Bool) : PReqResult :=
  if !s.pythonInitialized then
    { result := none
      err := writeErr errorSupplied "Python runtime not initialized"
      events := []
      state := s }
  else
    let gil0 := [Event.gilEnsure]
    let ensured :=
      if s.bridgeInstance.isNone then ensure_bridge_initialized env s brandConfigJson
      else (s, [])
    let s1 := ensured.1
    let ev1 := gil0 ++ ensured.2
    match s1.bridgeInstance with
    | none =>
      { result := none
        err := writeErr errorSupplied "Failed to initialize NovinAIBridge"
        events := ev1 ++ [Event.gilRelease]
        state := s1 }
    | some _ =>
      let ev2 := ev1 ++ [Event.pyApi "PyObject_GetAttrString process_request"]
      if !env.getProcessOk then
        { result := none
          err := writeErr errorSupplied "NovinAIBridge missing process_request"
          events := ev2 ++ [Event.gilRelease]
          state := s1 }
      else
        let actualClientId := clientId.getD "ios-client"
        let ev3 := ev2 ++ [Event.collabCall requestJson actualClientId]
        match env.callResult with
        | none =>
          { result := none
            err := writeErr errorSupplied "Python processing failed"
            events := ev3 ++ [Event.gilRelease]
            state := s1 }
        | some pyResult =>
          let ev4 := ev3 ++ [Event.pyApi "PyUnicode_AsUTF8"]
          if !env.utf8Ok then
            { result := none
              err := writeErr errorSupplied "Failed to convert Python result to UTF-8"
              events := ev4 ++ [Event.gilRelease]
              state := s1 }
          else if !env.dupOk then
            { result := none
              err := writeErr errorSupplied "Out of memory duplicating response"
              events := ev4 ++ [Event.gilRelease]
              state := s1 }
          else
            { result := some pyResult
              err := none
              events := ev4 ++ [Event.gilRelease]
              state := s1 }

/-- Outcome oracle for the fallible calls on the `novin_python_initialize`
path: `homeDecodeOk` is `Py_DecodeLocale(pythonHome, NULL)` (line 91),
`setHomeOk` is `PyConfig_SetString(&config, &config.home, ...)` (line 96),
`dupPathOk` is `strdup(pythonPath)` (line 106), `pathDecodeOk t` is
`Py_DecodeLocale(t, NULL)` for the colon-delimited entry `t` (line 116),
`appendOk t` is `PyWideStringList_Append` for that entry (line 118), and
`startupOk` is `Py_InitializeFromConfig` succeeding with `Py_IsInitialized`
true (lines 129-130). -/
structure InitEnv where
  homeDecodeOk : Bool
  setHomeOk : Bool
  dupPathOk : Bool
  pathDecodeOk : String → Bool
  appendOk : String → Bool
  startupOk : Bool

/-- One pass of the `strtok_r` tokenizer over the remaining characters,
with `acc` the (reversed) characters of the token being assembled: a
delimiter ends the current token, and empty tokens (leading, trailing, or
between consecutive delimiters) are skipped, exactly as `strtok_r` does. -/
def tokenizeChars (delim : Char) : List Char → List Char → List String
  | [], acc => if acc.isEmpty then [] else [String.mk acc.reverse]
  | c :: cs, acc =>
    if c = delim then
      if acc.isEmpty then tokenizeChars delim cs []
      else String.mk acc.reverse :: tokenizeChars delim cs []
    else tokenizeChars delim cs (c :: acc)

/-- The colon-delimited entries the `strtok_r` loop of lines 113-115
produces from `pythonPath`. -/
def splitTokens (path : String) : List String :=
  tokenizeChars ':' path.data []

/-- The append loop of lines 113-125: each entry whose decoding fails is
skipped (`continue`); a structural append failure aborts the whole call
(`none`); otherwise the successfully appended entries are returned in
order. -/
def appendTokens (env : InitEnv) : List String → Option (List String)
  | [] => some []
  | t :: ts =>
    if !env.pathDecodeOk t then appendTokens env ts
    else if !env.appendOk t then none
    else (appendTokens env ts).map (fun l => t :: l)

/-- The observable outcome of one `novin_python_initialize` call: the
Boolean return value, the list of module-search-path entries appended to
the interpreter configuration, and the static state on return. -/
structure InitResult where
  ok : Bool
  appended : List String
  state : BridgeState
  deriving Repr, DecidableEq

/-- Final stage of initialization (lines 129-140): low-level interpreter
start-up; on success the main thread state is saved (the GIL is released
for the embedding application) and the initialized flag is set. -/
def init_startup (env : InitEnv) (s : BridgeState) (appended : List String) :
    InitResult :=
  if !env.startupOk then { ok := false, appended := appended, state := s }
  else
    { ok := true
      appended := appended
      state := { s with pythonInitialized := true, mainThreadStateSaved := true } }

/-- Path stage of initialization (lines 104-127): when `pythonPath` is
non-null and non-empty, duplicate it and append each colon-delimited entry;
a failed duplication or a structural append failure returns false. -/
def init_path (env : InitEnv) (s : BridgeState) (pythonPath : Option String) :
    InitResult :=
  if cstrNonEmpty pythonPath then
    if !env.dupPathOk then { ok := false, appended := [], state := s }
    else
      match appendTokens env (splitTokens (pythonPath.getD "")) with
      | none => { ok := false, appended := [], state := s }
      | some appended => init_startup env s appended
  else init_startup env s []

/-- `novin_python_initialize` (lines 75-141 of NovinPythonBridge.c).
Returns true immediately when already initialized (line 76-78); otherwise
configures the isolated interpreter: the home stage (lines 90-101, storing
the decoded home in the static `s_pythonHomeW` before the copy into the
configuration is checked), the path stage, and the start-up stage. -/
def novin_python_initialize (env : InitEnv) (s : BridgeState)
    (pythonHome pythonPath : Option String) : InitResult :=
  if s.pythonInitialized then { ok := true, appended := [], state := s }
  else
    if cstrNonEmpty pythonHome then
      if !env.homeDecodeOk then { ok := false, appended := [], state := s }
      else
        let s2 := { s with pythonHomeW := some (pythonHome.getD "") }
        if !env.setHomeOk then { ok := false, appended := [], state := s2 }
        else init_path env s2 pythonPath
    else init_path env s pythonPath

/-- A deallocation performed by `novin_python_free_string`. -/
inductive FreeEffect where
  | deallocate (s : String)
  deriving Repr, DecidableEq

/-- `novin_python_free_string` (lines 214-218): `free` the string when the
pointer is non-null, otherwise do nothing.  The returned list is the
sequence of deallocations performed. -/
def novin_python_free_string : Option String → List FreeEffect
  | none => []
  | some s => [FreeEffect.deallocate s]

/-- `novin_python_finalize` (lines 220-246): a no-op when not initialized;
otherwise restore the saved thread state, drop the bridge instance under
the GIL, finalize the interpreter, clear the initialized flag, and free the
retained decoded home buffer. -/
def novin_python_finalize (s : BridgeState) : BridgeState :=
  if !s.pythonInitialized then s
  else
    { pythonInitialized := false
      bridgeInstance := none
      pythonHomeW := none
      mainThreadStateSaved := false }

/-- The cross-operation invariant of claim C9: a live collaborator instance
implies the runtime is initialized. -/
def BridgeInv (s : BridgeState) : Prop :=
  s.bridgeInstance.isSome = true → s.pythonInitialized = true

instance (s : BridgeState) : Decidable (BridgeInv s) := by
  unfold BridgeInv; infer_instance

/-- Fixture: an oracle on which every CPython call on the request path
succeeds and the collaborator returns the string "ok-response". -/
def envAllOk : PyEnv :=
  { unicodeOk := true
    importModuleOk := true
    getClassOk := true
    jsonImportOk := true
    loadsAttrOk := true
    jsonLoadsOk := true
    ctorOk := true
    getProcessOk := true
    callResult := some "ok-response"
    utf8Ok := true
    dupOk := true }

/-- Fixture: like `envAllOk` except the collaborator call raises. -/
def envCallRaises : PyEnv := { envAllOk with callResult := none }

/-- Fixture: like `envAllOk` except `json.loads` fails on the supplied
brand-configuration string. -/
def envParseFails : PyEnv := { envAllOk with jsonLoadsOk := false }

/-- Fixture: like `envAllOk` except importing the collaborator module fails. -/
def envImportFails : PyEnv := { envAllOk with importModuleOk := false }

/-- Fixture: the state right after a successful initialize, before the
first request: runtime up, no collaborator instance yet. -/
def sReady : BridgeState :=
  { pythonInitialized := true
    bridgeInstance := none
    pythonHomeW := none
    mainThreadStateSaved := true }

/-- Fixture: an initialized state whose collaborator instance was built
with the no-argument constructor. -/
def sBuilt : BridgeState :=
  { sReady with bridgeInstance := some { ctorConfig := none } }

/-- Fixture: an oracle on which every call of the initialization path
succeeds. -/
def envInitOk : InitEnv :=
  { homeDecodeOk := true
    setHomeOk := true
    dupPathOk := true
    pathDecodeOk := fun _ => true
    appendOk := fun _ => true
    startupOk := true }

/- ---------------------------------------------------------------------
Helper lemmas about the embedding (shared by several claim theorems).
--------------------------------------------------------------------- -/

theorem cstrNonEmpty_none : cstrNonEmpty none = false := rfl

theorem cstrNonEmpty_some_empty : cstrNonEmpty (some "") = false := rfl

theorem isGil_pyApi (n : String) : (Event.pyApi n).isGil = false := rfl

theorem isGil_construct (o : Option String) : (Event.construct o).isGil = false := rfl

/-- `ensure_bridge_initialized` never touches the interpreter lock: its
trace contains no GIL events. -/
theorem ensure_events_gil_free (env : PyEnv) (s : BridgeState)
    (cfg : Option String) :
    ( ensure_bridge_initialized env s cfg).2.filter Event.isGil = [] := by
  simp only [ensure_bridge_initialized]
  repeat' split
  all_goals rfl

/-- `ensure_bridge_initialized` never changes the initialized flag. -/
theorem ensure_preserves_flag (env : PyEnv) (s : BridgeState)
    (cfg : Option String) :
    ( ensure_bridge_initialized env s cfg).1.pythonInitialized
      = s.pythonInitialized := by
  simp only [ensure_bridge_initialized]
  repeat' split
  all_goals rfl

theorem isConstruct_pyApi (n : String) :
    (Event.pyApi n).isConstruct = false := rfl

theorem isConstruct_construct (o : Option String) :
    (Event.construct o).isConstruct = true := rfl

/-- Starting from a state with no instance, `ensure_bridge_initialized`
ends with an instance exactly when the module-name creation, the import,
the class lookup and the constructor call all succeed (the configuration
parse chain does not matter for success). -/
theorem ensure_sets_instance_iff (env : PyEnv) (s : BridgeState)
    (cfg : Option String) (hnone : s.bridgeInstance = none) :
    ( ensure_bridge_initialized env s cfg).1.bridgeInstance.isSome = true ↔
      (env.unicodeOk = true ∧ env.importModuleOk = true ∧
        env.getClassOk = true ∧ env.ctorOk = true) := by
  simp only [ensure_bridge_initialized]
  repeat' split
  all_goals simp_all

/-- On every failure branch `ensure_bridge_initialized` leaves the state
untouched. -/
theorem ensure_hard_failure_state (env : PyEnv) (s : BridgeState)
    (cfg : Option String)
    (h : env.unicodeOk = false ∨ env.importModuleOk = false ∨
      env.getClassOk = false ∨ env.ctorOk = false) :
    ( ensure_bridge_initialized env s cfg).1 = s := by
  simp only [ensure_bridge_initialized]
  repeat' split
  all_goals first
    | rfl
    | (exfalso; rcases h with h | h | h | h <;> simp_all)

/-- When no instance exists, the configuration is non-empty and the whole
chain (including the JSON parse) succeeds, the instance is constructed with
that configuration and exactly one constructor call occurs, with that
argument. -/
theorem ensure_success_with_config (env : PyEnv) (s : BridgeState)
    (cfg : String) (hnone : s.bridgeInstance = none) (hlen : 0 < cfg.length)
    (h1 : env.unicodeOk = true) (h2 : env.importModuleOk = true)
    (h3 : env.getClassOk = true) (h4 : env.jsonImportOk = true)
    (h5 : env.loadsAttrOk = true) (h6 : env.jsonLoadsOk = true)
    (h7 : env.ctorOk = true) :
    ( ensure_bridge_initialized env s (some cfg)).1
        = { s with bridgeInstance := some { ctorConfig := some cfg } } ∧
    ( ensure_bridge_initialized env s (some cfg)).2.filter Event.isConstruct
        = [Event.construct (some cfg)] := by
  refine ⟨?_, ?_⟩ <;>
    simp [ensure_bridge_initialized, hnone, h1, h2, h3, h4, h5, h6, h7,
      cstrNonEmpty, hlen, List.filter_append, isConstruct_pyApi,
      isConstruct_construct]

/-- C1: for every call to `novin_python_process_request` made while the
runtime is Initialized, the interpreter lock acquired at entry is released
before the function returns, on every exit path (success, BridgeInitFailed,
MethodMissing, ProcessingFailed, EncodingFailed and OutOfMemory alike): the
GIL sub-trace of the call is always exactly one acquisition followed by
one release, for every outcome oracle. -/
theorem C1_gil_released_on_every_path (env : PyEnv) (s : BridgeState)
    (requestJson : String) (clientId brandConfigJson : Option String)
    (errorSupplied : Bool) (hinit : s.pythonInitialized = true) :
    ( novin_python_process_request env s requestJson clientId brandConfigJson
        errorSupplied).events.filter Event.isGil
      = [Event.gilEnsure, Event.gilRelease] := by
  simp only [novin_python_process_request, hinit, Bool.not_true]
  repeat' split
  all_goals
    simp_all [List.filter_append, ensure_events_gil_free, isGil_pyApi,
      isGil_construct, Event.isGil]

/-- C1 witness: a concrete successful call under an initialized state. -/
theorem C1_gil_released_on_every_path_witness :
    ( novin_python_process_request envAllOk sReady "req" none none
        true).events.filter Event.isGil
      = [Event.gilEnsure, Event.gilRelease] :=
  C1_gil_released_on_every_path envAllOk sReady "req" none none true rfl

/-- C2: whenever the initialized flag is false (before the first initialize
and after a finalize alike), `novin_python_process_request` fails with the
NotInitialized error: it returns NULL, writes the not-initialized message
into the error slot exactly when one was supplied, leaves the static state
unchanged, and performs no interaction with the interpreter or the
collaborator module (empty event trace); moreover `novin_python_finalize`
always leaves the flag false, so the hypothesis covers every post-finalize
state. -/
theorem C2_not_initialized_fails (env : PyEnv) (s t : BridgeState)
    (requestJson : String) (clientId brandConfigJson : Option String)
    (errorSupplied : Bool) (hinit : s.pythonInitialized = false) :
    ( novin_python_process_request env s requestJson clientId brandConfigJson
        errorSupplied).result = none ∧
    ( novin_python_process_request env s requestJson clientId brandConfigJson
        errorSupplied).events = [] ∧
    ( novin_python_process_request env s requestJson clientId brandConfigJson
        errorSupplied).state = s ∧
    (errorSupplied = true →
      ( novin_python_process_request env s requestJson clientId brandConfigJson
          errorSupplied).err = some "Python runtime not initialized") ∧
    (errorSupplied = false →
      ( novin_python_process_request env s requestJson clientId brandConfigJson
          errorSupplied).err = none) ∧
    ( novin_python_finalize t).pythonInitialized = false := by
  refine ⟨?_, ?_, ?_, ?_, ?_, ?_⟩
  all_goals
    simp only [novin_python_process_request, novin_python_finalize, hinit,
      Bool.not_false, if_true, writeErr]
  any_goals simp
  all_goals (repeat' split) <;> simp_all

/-- C2 witness: a concrete call in the freshly loaded process state. -/
theorem C2_not_initialized_fails_witness :
    ( novin_python_process_request envAllOk initialState "req" none none
        true).result = none ∧
    ( novin_python_process_request envAllOk initialState "req" none none
        true).events = [] ∧
    ( novin_python_process_request envAllOk initialState "req" none none
        true).state = initialState ∧
    (True = True →
      ( novin_python_process_request envAllOk initialState "req" none none
          true).err = some "Python runtime not initialized") ∧
    ( novin_python_finalize sBuilt).pythonInitialized = false := by
  have h := C2_not_initialized_fails envAllOk initialState sBuilt "req" none
    none true rfl
  exact ⟨h.1, h.2.1, h.2.2.1, fun _ => h.2.2.2.1 rfl, h.2.2.2.2.2⟩

/-- C8: `novin_python_free_string` applied to the null pointer is a safe
no-op: it performs no deallocation (and, by its type, no other effect). -/
theorem C8_free_null_noop :
    novin_python_free_string none = ([] : List FreeEffect) := rfl

/-- C10: `novin_python_initialize` treats an empty string exactly like a
null pointer for both parameters: an empty home configures no interpreter
home, an empty path appends no module search paths, and the call with both
empty behaves identically to the call with both null. -/
theorem C10_empty_equals_null (env : InitEnv) (s : BridgeState)
    (h p : Option String) :
    novin_python_initialize env s (some "") p
        = novin_python_initialize env s none p ∧
    novin_python_initialize env s h (some "")
        = novin_python_initialize env s h none ∧
    novin_python_initialize env s (some "") (some "")
        = novin_python_initialize env s none none := by
  refine ⟨?_, ?_, ?_⟩ <;>
    simp [ novin_python_initialize, init_path, cstrNonEmpty_some_empty,
      cstrNonEmpty_none]

/-- A call outcome of true propagates the initialized flag: a successful
`novin_python_initialize` always leaves the flag set. -/
theorem init_ok_flag (env : InitEnv) (s : BridgeState) (h p : Option String) :
    ( novin_python_initialize env s h p).ok = true →
    ( novin_python_initialize env s h p).state.pythonInitialized = true := by
  simp only [ novin_python_initialize, init_path, init_startup]
  repeat' split
  all_goals simp_all

/-- `novin_python_process_request` never changes the initialized flag. -/
theorem preq_preserves_flag (env : PyEnv) (s : BridgeState) (rq : String)
    (cid cfg : Option String) (es : Bool) :
    ( novin_python_process_request env s rq cid cfg es).state.pythonInitialized
      = s.pythonInitialized := by
  simp only [novin_python_process_request]
  repeat' split
  all_goals simp [ensure_preserves_flag]

/-- In an uninitialized state, `novin_python_process_request` leaves the
state untouched. -/
theorem preq_state_not_init (env : PyEnv) (s : BridgeState) (rq : String)
    (cid cfg : Option String) (es : Bool) (h : s.pythonInitialized = false) :
    ( novin_python_process_request env s rq cid cfg es).state = s := by
  simp [novin_python_process_request, h]

/-- C5: for every call with a non-null error slot supplied, a successful
call returns an owned string and leaves the slot untouched, while every
failing call returns NULL and writes an owned, non-null, non-empty
human-readable message into the slot (the `strdup` of the fixed message
literals is modelled as infallible). -/
theorem C5_error_slot_contract (env : PyEnv) (s : BridgeState)
    (requestJson : String) (clientId brandConfigJson : Option String) :
    (( novin_python_process_request env s requestJson clientId brandConfigJson
        true).result.isSome = true →
      ( novin_python_process_request env s requestJson clientId brandConfigJson
        true).err = none) ∧
    (( novin_python_process_request env s requestJson clientId brandConfigJson
        true).result = none →
      ∃ m, ( novin_python_process_request env s requestJson clientId
          brandConfigJson true).err = some m ∧ m ≠ "") := by
  simp only [novin_python_process_request, writeErr]
  repeat' split
  all_goals simp_all

/-- C5 witness: a successful call leaves the slot untouched; a call whose
collaborator raises writes a non-empty message. -/
theorem C5_error_slot_contract_witness :
    ( novin_python_process_request envAllOk sReady "req" none none true).err
      = none ∧
    (∃ m, ( novin_python_process_request envCallRaises sReady "req" none none
        true).err = some m ∧ m ≠ "") :=
  ⟨(C5_error_slot_contract envAllOk sReady "req" none none).1 (by decide),
   (C5_error_slot_contract envCallRaises sReady "req" none none).2 (by decide)⟩

/-- C6: `novin_python_initialize` is idempotent: when the runtime is
already Initialized any call returns true immediately with the state
unchanged and nothing appended (no reconfiguration), and in particular
after any successful call a second call — whatever its arguments — returns
true and performs no duplicate configuration. -/
theorem C6_initialize_idempotent (env1 env2 : InitEnv) (s : BridgeState)
    (h1 p1 h2 p2 : Option String) :
    (s.pythonInitialized = true →
      novin_python_initialize env1 s h1 p1
        = { ok := true, appended := [], state := s }) ∧
    (( novin_python_initialize env1 s h1 p1).ok = true →
      novin_python_initialize env2
          ( novin_python_initialize env1 s h1 p1).state h2 p2
        = { ok := true, appended := [],
            state := ( novin_python_initialize env1 s h1 p1).state }) := by
  constructor
  · intro h
    simp [ novin_python_initialize, h]
  · intro h
    have hflag := init_ok_flag env1 s h1 p1 h
    generalize ( novin_python_initialize env1 s h1 p1) = r at hflag ⊢
    simp [ novin_python_initialize, hflag]

/-- C6 witness: two successive calls from the fresh process state both
succeed and the second changes nothing. -/
theorem C6_initialize_idempotent_witness :
    novin_python_initialize envInitOk sReady none none
        = { ok := true, appended := [], state := sReady } ∧
    novin_python_initialize envInitOk
        ( novin_python_initialize envInitOk initialState none none).state
        none none
      = { ok := true, appended := [],
          state := ( novin_python_initialize envInitOk initialState none
              none).state } :=
  ⟨(C6_initialize_idempotent envInitOk envInitOk sReady none none none none).1
      rfl,
   (C6_initialize_idempotent envInitOk envInitOk initialState none none none
      none).2 rfl⟩

/-- C9: the invariant "a live BridgeInstance implies the runtime is
Initialized" holds in the initial process state and is preserved by
`novin_python_initialize`, `novin_python_process_request` and
`novin_python_finalize`; `novin_python_free_string` reads and writes no
bridge state at all (its type mentions none), so it preserves every state
predicate. -/
theorem C9_instance_implies_initialized :
    BridgeInv initialState ∧
    (∀ (env : InitEnv) (s : BridgeState) (h p : Option String),
      BridgeInv s → BridgeInv ( novin_python_initialize env s h p).state) ∧
    (∀ (env : PyEnv) (s : BridgeState) (rq : String) (cid cfg : Option String)
        (es : Bool),
      BridgeInv s →
        BridgeInv ( novin_python_process_request env s rq cid cfg es).state) ∧
    (∀ s : BridgeState, BridgeInv s → BridgeInv ( novin_python_finalize s)) := by
  refine ⟨?_, ?_, ?_, ?_⟩
  · intro h
    simp [initialState] at h
  · intro env s h p hI
    simp only [BridgeInv, novin_python_initialize, init_path, init_startup]
    repeat' split
    all_goals simp_all [BridgeInv]
  · intro env s rq cid cfg es hI
    by_cases hinit : s.pythonInitialized = true
    · intro _
      rw [preq_preserves_flag]
      exact hinit
    · rw [preq_state_not_init env s rq cid cfg es (by simpa using hinit)]
      exact hI
  · intro s hI
    simp only [BridgeInv, novin_python_finalize]
    split
    · exact hI
    · intro h
      simp at h

/-- C9 witness: the invariant propagates through one concrete call of each
state-changing operation. -/
theorem C9_instance_implies_initialized_witness :
    BridgeInv ( novin_python_initialize envInitOk initialState none none).state ∧
    BridgeInv ( novin_python_process_request envAllOk sReady "req" none none
        true).state ∧
    BridgeInv ( novin_python_finalize sBuilt) :=
  ⟨C9_instance_implies_initialized.2.1 envInitOk initialState none none
      (by decide),
   C9_instance_implies_initialized.2.2.1 envAllOk sReady "req" none none true
      (by decide),
   C9_instance_implies_initialized.2.2.2 sBuilt (by decide)⟩

theorem isConstruct_gilEnsure : Event.gilEnsure.isConstruct = false := rfl

theorem isConstruct_gilRelease : Event.gilRelease.isConstruct = false := rfl

theorem isConstruct_collabCall (rq cid : String) :
    (Event.collabCall rq cid).isConstruct = false := rfl

/-- C3: after a successful initialize, the first request call that finds no
BridgeInstance constructs it exactly once — one constructor invocation,
using the non-empty brand configuration supplied on that call (here under
the oracle on which the construction chain succeeds) — while every call
that finds an existing instance reuses it unchanged and performs no
constructor invocation at all, whatever configuration it supplies, until
`novin_python_finalize` destroys the instance. -/
theorem C3_config_sticky (env : PyEnv) (s : BridgeState) (requestJson : String)
    (clientId : Option String) (cfg : String) (errorSupplied : Bool)
    (hinit : s.pythonInitialized = true) (hnone : s.bridgeInstance = none)
    (hlen : 0 < cfg.length)
    (h1 : env.unicodeOk = true) (h2 : env.importModuleOk = true)
    (h3 : env.getClassOk = true) (h4 : env.jsonImportOk = true)
    (h5 : env.loadsAttrOk = true) (h6 : env.jsonLoadsOk = true)
    (h7 : env.ctorOk = true) :
    (( novin_python_process_request env s requestJson clientId (some cfg)
        errorSupplied).state.bridgeInstance
      = some { ctorConfig := some cfg }) ∧
    (( novin_python_process_request env s requestJson clientId (some cfg)
        errorSupplied).events.filter Event.isConstruct
      = [Event.construct (some cfg)]) ∧
    (∀ (env2 : PyEnv) (s2 : BridgeState) (inst : BridgeInstanceObj)
        (rq2 : String) (cid2 cfg2 : Option String) (es2 : Bool),
      s2.pythonInitialized = true → s2.bridgeInstance = some inst →
        ( novin_python_process_request env2 s2 rq2 cid2 cfg2
            es2).state.bridgeInstance = some inst ∧
        ( novin_python_process_request env2 s2 rq2 cid2 cfg2 es2).events.filter
            Event.isConstruct = []) ∧
    (∀ s3 : BridgeState, s3.pythonInitialized = true →
      ( novin_python_finalize s3).bridgeInstance = none) := by
  obtain ⟨hst, hev⟩ := ensure_success_with_config env s cfg hnone hlen h1 h2 h3
    h4 h5 h6 h7
  refine ⟨?_, ?_, ?_, ?_⟩
  · simp only [novin_python_process_request, hinit, Bool.not_true, hnone,
      Option.isNone_none, if_true, hst]
    repeat' split
    all_goals simp_all
  · simp only [novin_python_process_request, hinit, Bool.not_true, hnone,
      Option.isNone_none, if_true, hst]
    repeat' split
    all_goals
      simp_all [List.filter_append, hev, isConstruct_gilEnsure,
        isConstruct_gilRelease, isConstruct_pyApi, isConstruct_collabCall]
  · intro env2 s2 inst rq2 cid2 cfg2 es2 hinit2 hsome2
    constructor
    all_goals
      simp only [novin_python_process_request, hinit2, Bool.not_true, hsome2,
        Option.isNone_some]
    all_goals repeat' split
    all_goals
      simp_all [List.filter_append, isConstruct_gilEnsure,
        isConstruct_gilRelease, isConstruct_pyApi, isConstruct_collabCall]
  · intro s3 hinit3
    simp [novin_python_finalize, hinit3]

/-- C3 witness: a first call constructs the instance with the supplied
configuration; a later call with a different configuration leaves the
instance as it was; finalize clears it. -/
theorem C3_config_sticky_witness :
    ( novin_python_process_request envAllOk sReady "req" none
        (some "brand-cfg") true).state.bridgeInstance
      = some { ctorConfig := some "brand-cfg" } ∧
    ( novin_python_process_request envAllOk
        { sReady with bridgeInstance := some { ctorConfig := some "brand-cfg" } }
        "req2" none (some "other-cfg") true).state.bridgeInstance
      = some { ctorConfig := some "brand-cfg" } ∧
    ( novin_python_finalize sReady).bridgeInstance = none := by
  have h := C3_config_sticky envAllOk sReady "req" none "brand-cfg" true rfl
    rfl (by decide) rfl rfl rfl rfl rfl rfl rfl
  exact ⟨h.1,
    (h.2.2.1 envAllOk _ { ctorConfig := some "brand-cfg" } "req2" none
      (some "other-cfg") true rfl rfl).1,
    h.2.2.2 sReady rfl⟩

/-- When no instance exists, the import/class/constructor chain succeeds
but the configuration-parse chain does not contribute an argument (empty
or null configuration, json import failure, loads lookup failure, or parse
failure), the constructor is silently called with no arguments and the
instance is stored built that way. -/
theorem ensure_success_noarg (env : PyEnv) (s : BridgeState)
    (cfgO : Option String) (hnone : s.bridgeInstance = none)
    (h1 : env.unicodeOk = true) (h2 : env.importModuleOk = true)
    (h3 : env.getClassOk = true) (h7 : env.ctorOk = true)
    (hch : cstrNonEmpty cfgO = false ∨ env.jsonImportOk = false ∨
      env.loadsAttrOk = false ∨ env.jsonLoadsOk = false) :
    ( ensure_bridge_initialized env s cfgO).1
      = { s with bridgeInstance := some { ctorConfig := none } } := by
  simp only [ensure_bridge_initialized]
  repeat' split
  all_goals rcases hch with h | h | h | h
  all_goals simp_all

/-- C4 counterexample: with a non-empty brand configuration whose JSON
parse fails but an otherwise healthy chain, the failure at the
construction stage does NOT surface as BridgeInitFailed and does NOT leave
BridgeInstance unset: the constructor is silently called with no
arguments, the instance is stored, and the call succeeds. -/
theorem C4_counterexample :
    envParseFails.jsonLoadsOk = false ∧
    cstrNonEmpty (some "bad-json") = true ∧
    ( novin_python_process_request envParseFails sReady "req" none
        (some "bad-json") true).state.bridgeInstance
      = some { ctorConfig := none } ∧
    ( novin_python_process_request envParseFails sReady "req" none
        (some "bad-json") true).result = some "ok-response" ∧
    ( novin_python_process_request envParseFails sReady "req" none
        (some "bad-json") true).err = none := by
  decide

/-- C4 amended: when BridgeInstance does not yet exist, a failure to build
the module name, import the module by fixed name, resolve the class by
fixed name, or run the constructor leaves BridgeInstance unset, surfaces
as BridgeInitFailed and leaves the state unchanged, so the construction is
retried on the next call (no permanent-failure caching: a later call under
an all-success oracle stores an instance); a failure anywhere in the
configuration-parse chain, however (json import, loads lookup, or the
parse itself), is not fatal: the constructor is silently called with no
arguments, exactly as for an empty or null configuration. -/
theorem C4_bridge_init_failure (env : PyEnv) (s : BridgeState)
    (requestJson : String) (clientId cfgO : Option String)
    (errorSupplied : Bool) (hinit : s.pythonInitialized = true)
    (hnone : s.bridgeInstance = none) :
    ((env.unicodeOk = false ∨ env.importModuleOk = false ∨
        env.getClassOk = false ∨ env.ctorOk = false) →
      ( novin_python_process_request env s requestJson clientId cfgO
          errorSupplied).state = s ∧
      ( novin_python_process_request env s requestJson clientId cfgO
          errorSupplied).result = none ∧
      ( novin_python_process_request env s requestJson clientId cfgO
          errorSupplied).err
        = writeErr errorSupplied "Failed to initialize NovinAIBridge") ∧
    ((env.unicodeOk = true ∧ env.importModuleOk = true ∧
        env.getClassOk = true ∧ env.ctorOk = true) →
      (cstrNonEmpty cfgO = false ∨ env.jsonImportOk = false ∨
        env.loadsAttrOk = false ∨ env.jsonLoadsOk = false) →
      ( novin_python_process_request env s requestJson clientId cfgO
          errorSupplied).state.bridgeInstance
        = some { ctorConfig := none }) ∧
    (∀ (rq2 : String) (cid2 cfg2 : Option String) (es2 : Bool),
      ( novin_python_process_request envAllOk s rq2 cid2 cfg2
          es2).state.bridgeInstance.isSome = true) := by
  refine ⟨?_, ?_, ?_⟩
  · intro hfail
    have hs1 := ensure_hard_failure_state env s cfgO hfail
    have hset := ensure_sets_instance_iff env s cfgO hnone
    have hunset : ( ensure_bridge_initialized env s cfgO).1.bridgeInstance
        = none := by
      rw [hs1, hnone]
    simp only [novin_python_process_request, hinit, Bool.not_true, hnone,
      Option.isNone_none, if_true]
    repeat' split
    all_goals simp_all [writeErr]
  · intro hok hch
    have hs1 := ensure_success_noarg env s cfgO hnone hok.1 hok.2.1 hok.2.2.1
      hok.2.2.2 hch
    simp only [novin_python_process_request, hinit, Bool.not_true, hnone,
      Option.isNone_none, if_true, hs1]
    repeat' split
    all_goals simp_all
  · intro rq2 cid2 cfg2 es2
    have hiff := (ensure_sets_instance_iff envAllOk s cfg2 hnone).mpr
      ⟨rfl, rfl, rfl, rfl⟩
    simp only [novin_python_process_request, hinit, Bool.not_true, hnone,
      Option.isNone_none, if_true]
    repeat' split
    all_goals simp_all

/-- C4 amended witness: an import failure surfaces as BridgeInitFailed,
while a parse-chain failure and an all-success retry both end with a
stored instance. -/
theorem C4_bridge_init_failure_witness :
    ( novin_python_process_request envImportFails sReady "req" none none
        true).err = some "Failed to initialize NovinAIBridge" ∧
    ( novin_python_process_request envImportFails sReady "req" none none
        true).state = sReady ∧
    ( novin_python_process_request envAllOk sReady "req" none none
        true).state.bridgeInstance = some { ctorConfig := none } ∧
    ( novin_python_process_request envAllOk sReady "req2" none none
        false).state.bridgeInstance.isSome = true := by
  have ha := C4_bridge_init_failure envImportFails sReady "req" none none true
    rfl rfl
  have hb := C4_bridge_init_failure envAllOk sReady "req" none none true rfl
    rfl
  exact ⟨(ha.1 (by decide)).2.2, (ha.1 (by decide)).1,
    hb.2.1 (by decide) (by decide), hb.2.2 "req2" none none false⟩

/-- The append loop fails (aborting the whole initialize call) exactly when
some entry decodes but its append fails. -/
theorem appendTokens_none_iff (env : InitEnv) (ts : List String) :
    appendTokens env ts = none ↔
      ∃ t ∈ ts, env.pathDecodeOk t = true ∧ env.appendOk t = false := by
  induction ts with
  | nil => simp [appendTokens]
  | cons t ts ih =>
    by_cases hd : env.pathDecodeOk t
    · by_cases ha : env.appendOk t
      · simp [appendTokens, hd, ha, ih]
      · have ha2 : env.appendOk t = false := by simp_all
        simp [appendTokens, hd, ha2]
    · have hd2 : env.pathDecodeOk t = false := by simp_all
      simp [appendTokens, hd2, ih]

/-- On success the append loop appends exactly the decodable entries, in
order (a failed decode is skipped, the rest still appended). -/
theorem appendTokens_some_filter (env : InitEnv) (ts : List String)
    (l : List String) (h : appendTokens env ts = some l) :
    l = ts.filter (fun t => env.pathDecodeOk t) := by
  induction ts generalizing l with
  | nil =>
    simp [appendTokens] at h
    subst h
    rfl
  | cons t ts ih =>
    by_cases hd : env.pathDecodeOk t
    · by_cases ha : env.appendOk t
      · simp [appendTokens, hd, ha, Option.map_eq_some'] at h
        obtain ⟨l2, hl2, rfl⟩ := h
        simp [List.filter_cons, hd, ih l2 hl2]
      · have ha2 : env.appendOk t = false := by simp_all
        simp [appendTokens, hd, ha2] at h
    · have hd2 : env.pathDecodeOk t = false := by simp_all
      simp only [appendTokens, hd2, Bool.not_false, if_true] at h
      simp [List.filter_cons, hd2, ih l h]

/-- An empty (or null) path splits into no entries. -/
theorem splitTokens_of_empty (p : Option String) (h : cstrNonEmpty p = false) :
    splitTokens (p.getD "") = [] := by
  cases p with
  | none => rfl
  | some str =>
    simp only [cstrNonEmpty, decide_eq_false_iff_not, Nat.not_lt,
      Nat.le_zero] at h
    have hstr : str = "" := by
      cases str with
      | mk l =>
        cases l with
        | nil => rfl
        | cons c cs => simp [String.length] at h
    subst hstr
    rfl

/-- C7: from the uninitialized state, `novin_python_initialize` returns
false — leaving the initialized flag unset — exactly when the home-path
stage fails (decoding the home or copying it into the configuration), the
path-list stage fails structurally (duplicating the path string, or the
append of some entry that decoded successfully), or low-level interpreter
start-up fails; a colon-delimited entry whose decoding fails is merely
skipped and never makes the call fail: on success the appended entries are
exactly the decodable entries, in order. -/
theorem C7_initialize_failure_conditions (env : InitEnv) (s : BridgeState)
    (home path : Option String) (hinit : s.pythonInitialized = false) :
    (( novin_python_initialize env s home path).ok = false ↔
      ((cstrNonEmpty home = true ∧
          (env.homeDecodeOk = false ∨ env.setHomeOk = false)) ∨
        (cstrNonEmpty path = true ∧
          (env.dupPathOk = false ∨
            ∃ t ∈ splitTokens (path.getD ""),
              env.pathDecodeOk t = true ∧ env.appendOk t = false)) ∨
        env.startupOk = false)) ∧
    (( novin_python_initialize env s home path).ok = false →
      ( novin_python_initialize env s home path).state.pythonInitialized
        = false) ∧
    (( novin_python_initialize env s home path).ok = true →
      ( novin_python_initialize env s home path).appended
        = (splitTokens (path.getD "")).filter
            (fun t => env.pathDecodeOk t)) := by
  refine ⟨?_, ?_, ?_⟩
  · simp only [ novin_python_initialize, init_path, init_startup]
    repeat' split
    all_goals simp_all [← appendTokens_none_iff]
  · simp only [ novin_python_initialize, init_path, init_startup]
    repeat' split
    all_goals intro hok
    all_goals simp_all
  · simp only [ novin_python_initialize, init_path, init_startup]
    repeat' split
    all_goals intro hok
    all_goals
      first
        | (apply appendTokens_some_filter; assumption)
        | simp_all [splitTokens_of_empty]

/-- C7 witness: with every call succeeding, both entries of "a:b" are
appended; with start-up failing, the call reports failure. -/
theorem C7_initialize_failure_conditions_witness :
    ( novin_python_initialize envInitOk initialState none
        (some "a:b")).appended = ["a", "b"] ∧
    ( novin_python_initialize { envInitOk with startupOk := false }
        initialState none none).ok = false := by
  have h1 := C7_initialize_failure_conditions envInitOk initialState none
    (some "a:b") rfl
  have h2 := C7_initialize_failure_conditions
    { envInitOk with startupOk := false } initialState none none rfl
  constructor
  · rw [h1.2.2 (by decide)]
    decide
  · exact h2.1.mpr (Or.inr (Or.inr rfl))

end NovinBridge
